import Mathlib

/-!
Verification of the AMiT DB-Net/IP protocol client
(`custom_components/amit/protocol.py`) against its specification.

Bytes are modelled as `Nat` (a real buffer holds values `< 256`; reads
that the source performs through `struct.unpack` reduce each byte
modulo 256, exactly as reading from a Python `bytes` object does).
Fallible code is modelled with `Except`/`Option`.
-/

instance {ε α : Type} [DecidableEq ε] [DecidableEq α] : DecidableEq (Except ε α) := fun x y =>
  match x, y with
  | .error a, .error b =>
    if h : a = b then .isTrue (by rw [h]) else .isFalse (by intro hc; cases hc; exact h rfl)
  | .error _, .ok _ => .isFalse (by intro hc; cases hc)
  | .ok _, .error _ => .isFalse (by intro hc; cases hc)
  | .ok a, .ok b =>
    if h : a = b then .isTrue (by rw [h]) else .isFalse (by intro hc; cases hc; exact h rfl)

/-- Little-endian 16-bit read of two buffer bytes (`struct.unpack('<H', …)`). -/
def u16le (b0 b1 : Nat) : Nat := b0 % 256 + b1 % 256 * 256

/-- Little-endian 32-bit read of four buffer bytes (`struct.unpack('<I', …)`). -/
def u32le (b0 b1 b2 b3 : Nat) : Nat :=
  b0 % 256 + b1 % 256 * 256 + b2 % 256 * 65536 + b3 % 256 * 16777216

/-- Little-endian signed 16-bit read (`struct.unpack('<h', …)`). -/
def i16le (b0 b1 : Nat) : Int :=
  let u := u16le b0 b1
  if u < 32768 then (u : Int) else (u : Int) - 65536

/-- Little-endian signed 32-bit read (`struct.unpack('<i', …)`). -/
def i32le (b0 b1 b2 b3 : Nat) : Int :=
  let u := u32le b0 b1 b2 b3
  if u < 2147483648 then (u : Int) else (u : Int) - 4294967296

/-- Little-endian 32-bit write (`struct.pack('<I', v)` for `v < 2^32`). -/
def packU32 (v : Nat) : List Nat :=
  [v % 256, v / 256 % 256, v / 65536 % 256, v / 16777216 % 256]

/-- Python `(~t) & 0xFFFFFFFF` for a nonnegative `t`: `(-t-1) mod 2^32`. -/
def bitnot32 (t : Nat) : Nat := 4294967295 - t % 4294967296

/-- One iteration of the loop body of `_randomize`:
`key = (key << 1) + 13; mult = (mult + key) * seed`. -/
def randStep (seed : Nat) : Nat × Nat → Nat × Nat
  | (key, mult) => let key2 := key * 2 + 13; (key2, (mult + key2) * seed)

/-- `_randomize(seed, password)` — the keyed PRNG (protocol.py lines 56-66).
Python integers are unbounded, so all intermediate arithmetic is exact
and only the final result is masked to 32 bits. -/
def _randomize (seed password : Nat) : Nat :=
  let password := if password = 0 then 1 else password
  let km := randStep seed (randStep seed (randStep seed (randStep seed
    (password, seed * password))))
  (password + km.2 + km.1) % 4294967296

/-- `_calc_checksum(data)` — end-around-carry 8-bit additive checksum
(protocol.py lines 69-76). -/
def _calc_checksum (data : List Nat) : Nat :=
  data.foldl (fun cs b => let cs2 := cs + b; if cs2 > 255 then (cs2 + 1) % 256 else cs2) 0

/-- The XOR mask byte applied at payload index `i` by `_encrypt_msg`:
bytes of `_randomize(key, ~tid)` for `i < 8`, bytes of
`_randomize(key, tid)` from `i = 8` on, cycling with period 4
(`pos` equals `i` throughout the loop). -/
def streamMask (key tid : Nat) (i : Nat) : Nat :=
  if i < 8 then (packU32 (_randomize key (bitnot32 tid))).getD (i % 4) 0
  else (packU32 (_randomize key tid)).getD (i % 4) 0

/-- XOR the mask over absolute positions `j ∈ [15, 15 + plen)`; `j` is the
index of the head of the remaining list. -/
def xorStream (mask : Nat → Nat) (plen : Nat) : Nat → List Nat → List Nat
  | _, [] => []
  | j, b :: bs =>
    (if 15 ≤ j ∧ j < 15 + plen then b ^^^ mask (j - 15) else b) :: xorStream mask plen (j + 1) bs

/-- `_encrypt_msg(msg, password)` (protocol.py lines 79-93), as a function
returning the transformed buffer. The `password` argument is unused by the
source as well: the masks are keyed by the header's key and transaction-id
fields alone. `none` models the `IndexError` the in-place loop would raise
when the buffer is shorter than `15 + msg[14] + 6`. -/
def _encrypt_msg (msg : List Nat) (password : Nat) : Option (List Nat) :=
  let payload_len := msg.getD 14 0 + 6
  if msg.length < 15 + payload_len then none
  else
    let key := u32le (msg.getD 6 0) (msg.getD 7 0) (msg.getD 8 0) (msg.getD 9 0)
    let tid := u32le (msg.getD 0 0) (msg.getD 1 0) (msg.getD 2 0) (msg.getD 3 0)
    some (xorStream (streamMask key tid) payload_len 0 msg)

/-- Errors raised by `_parse_response` (`ValueError`s in the source). -/
inductive ParseErr
  | tooShort
  | unknownFrameType (t : Nat)
deriving DecidableEq, Repr

/-- `_parse_response(data)` (protocol.py lines 96-120): returns
`(dest_addr, src_addr, status, value_data)`. -/
def _parse_response (data : List Nat) : Except ParseErr (Nat × Nat × Nat × List Nat) :=
  if data.length < 6 then .error .tooShort
  else
    let frame_type := data.getD 0 0
    if frame_type = 0x10 then
      .ok (data.getD 1 0, data.getD 2 0, Nat.land (data.getD 3 0) 0x0F, [])
    else if frame_type = 0x68 then
      let data_len := data.getD 1 0
      .ok (data.getD 4 0, data.getD 5 0, Nat.land (data.getD 6 0) 0x0F,
        (data.drop 8).take (data_len - 4))
    else .error (.unknownFrameType frame_type)

/-- Variable types in AMiT PLC (`VarType`, protocol.py lines 19-26). -/
inductive VarType
  | INT16
  | INT32
  | FLOAT
  | ARRAY
  | TIME_ARRAY
  | STRUCTURE
deriving DecidableEq, Repr

/-- `VarType(code)` with the `except ValueError: STRUCTURE` fallback of
`load_variables` (protocol.py lines 425-428). -/
def varTypeOfCode (c : Nat) : VarType :=
  match c with
  | 0 => .INT16
  | 1 => .INT32
  | 2 => .FLOAT
  | 3 => .ARRAY
  | 4 => .TIME_ARRAY
  | 5 => .STRUCTURE
  | _ => .STRUCTURE

/-- `VarType.is_readable`-style check used by `Variable.is_readable`
(protocol.py lines 51-53). -/
def VarType.is_readable (vt : VarType) : Bool :=
  vt = .INT16 || vt = .INT32 || vt = .FLOAT

/-- An AMiT PLC variable (`Variable`, protocol.py lines 29-36). The decoded
Latin-1 name is kept as its list of code points, which coincide with the
raw bytes. -/
structure Variable where
  name : List Nat
  wid : Nat
  var_type : VarType
  writable : Bool
deriving DecidableEq, Repr

/-- Does `pat` occur at the start of `l`? (Python `str.startswith` over
Latin-1 code points.) -/
def bytesStartWith : List Nat → List Nat → Bool
  | [], _ => true
  | _ :: _, [] => false
  | p :: ps, b :: bs => p == b && bytesStartWith ps bs

/-- The name stems of `_is_readonly_name` (protocol.py lines 459-477),
as Latin-1 code points: TE, TEPROST, TEVEN, TTUV, Trek, pokoj, Por,
ALARM, Stav, status, CO2_, koupl, Teoko. -/
def readonly_name_starts : List (List Nat) :=
  [[84, 69],
   [84, 69, 80, 82, 79, 83, 84],
   [84, 69, 86, 69, 78],
   [84, 84, 85, 86],
   [84, 114, 101, 107],
   [112, 111, 107, 111, 106],
   [80, 111, 114],
   [65, 76, 65, 82, 77],
   [83, 116, 97, 118],
   [115, 116, 97, 116, 117, 115],
   [67, 79, 50, 95],
   [107, 111, 117, 112, 108],
   [84, 101, 111, 107, 111]]

/-- `_is_readonly_name(name)` (protocol.py lines 459-477). -/
def _is_readonly_name (name : List Nat) : Bool :=
  readonly_name_starts.any (fun p => bytesStartWith p name)

/-- Python `str.isalpha()` restricted to the Latin-1 range, which is all a
name decoded with `bytes.decode('latin-1')` can contain: ASCII letters plus
the alphabetic code points U+00AA, U+00B5, U+00BA, U+00C0-U+00D6,
U+00D8-U+00F6, U+00F8-U+00FF. -/
def latin1IsAlpha (c : Nat) : Bool :=
  (65 ≤ c && c ≤ 90) || (97 ≤ c && c ≤ 122) || c == 170 || c == 181 || c == 186 ||
  (192 ≤ c && c ≤ 214) || (216 ≤ c && c ≤ 246) || (248 ≤ c && c ≤ 255)

/-- Index of the first zero byte, `none` if absent
(Python `bytes.find(b'\x00')` with `-1` mapped to `none`). -/
def find_null : List Nat → Option Nat
  | [] => none
  | b :: bs => if b = 0 then some 0 else (find_null bs).map (· + 1)

/-- Python `bytes.rstrip(b'\x00')`. -/
def rstripZeros (l : List Nat) : List Nat := (l.reverse.dropWhile (· = 0)).reverse

/-- Name extraction of `load_variables` (protocol.py lines 417-422):
truncate at the first NUL when one occurs at a positive index, otherwise
strip trailing NULs. -/
def extractName (name_bytes : List Nat) : List Nat :=
  match find_null name_bytes with
  | some k => if k > 0 then name_bytes.take k else rstripZeros name_bytes
  | none => rstripZeros name_bytes

/-- Exceptions a probe of `load_variables` can raise: the
`RuntimeError("Not connected")` of `_send_receive_internal` (protocol.py
lines 298-299), the `TimeoutError` of the response wait, transport errors,
and `ValueError`s from `_parse_response`-style checks. -/
inductive ProbeErr
  | notConnected
  | timeout
  | transportError
  | malformed
deriving DecidableEq, Repr

/-- One iteration body of the `load_variables` loop (protocol.py lines
397-451) applied to the outcome of one probe: `none` when the probe counts
as a consecutive failure, `some v` when a descriptor is accepted. An
`Except.error` probe models any exception raised by
`_send_receive`, all of which the loop catches. -/
def processProbe (resp : Except ProbeErr (List Nat)) : Option Variable :=
  match resp with
  | .error _ => none
  | .ok response =>
    if response.length < 10 ∨ response.getD 0 0 ≠ 0x68 then none
    else
      let frame_len := response.getD 1 0
      let data := (response.drop 8).take (4 + frame_len - 8)
      if data.length < 22 then none
      else
        let wid := u16le (data.getD 8 0) (data.getD 9 0)
        let var_type_code := data.getD 2 0
        let name := extractName ((data.drop 12).take 12)
        if name ≠ [] ∧ latin1IsAlpha (name.getD 0 0) = true ∧ 4000 ≤ wid ∧ wid ≤ 6000 then
          some { name := name, wid := wid, var_type := varTypeOfCode var_type_code,
                 writable := ! _is_readonly_name name }
        else none

/-- The `while consecutive_failures < max_failures and index < max_variables`
loop of `load_variables` (protocol.py lines 396-454). `fuel` is
`max_variables - index`; the returned `Nat` is the final `index`, i.e. the
number of probes issued. The peer is a script mapping each probed index to
the inner response (or the exception the probe raises). -/
def loadVarsLoop (peer : Nat → Except ProbeErr (List Nat)) :
    Nat → Nat → Nat → List Variable → List Variable × Nat
  | _index, _fails, 0, acc => (acc, _index)
  | index, fails, fuel + 1, acc =>
    if 10 ≤ fails then (acc, index)
    else
      match processProbe (peer index) with
      | some v => loadVarsLoop peer (index + 1) 0 fuel (acc ++ [v])
      | none => loadVarsLoop peer (index + 1) (fails + 1) fuel acc

/-- Comparison `key=lambda v: v.wid` used by the final `sorted` call. -/
def widLE (a b : Variable) : Prop := a.wid ≤ b.wid

instance : DecidableRel widLE := fun a b => Nat.decLe a.wid b.wid

instance : IsTotal Variable widLE := ⟨fun a b => Nat.le_total a.wid b.wid⟩

instance : IsTrans Variable widLE := ⟨fun _ _ _ => Nat.le_trans⟩

/-- Python's stable `sorted(variables, key=lambda v: v.wid)`, modelled by a
stable insertion sort. -/
def sortByWid (l : List Variable) : List Variable := List.insertionSort widLE l

/-- `load_variables(max_variables)` (protocol.py lines 387-457) against a
scripted peer: the accepted descriptors sorted by wid, paired with the
number of probes issued. -/
def load_variables (peer : Nat → Except ProbeErr (List Nat)) (max_variables : Nat) :
    List Variable × Nat :=
  let r := loadVarsLoop peer 0 0 max_variables []
  (sortByWid r.1, r.2)

/-- Errors `read_variable` can raise (protocol.py lines 354-371):
the `ValueError` for non-scalar types, a propagated `ValueError` from
`_parse_response`, the `RuntimeError("Invalid response")` for a value
payload under 2 bytes, and the `struct.error` that `unpack('<i')` /
`unpack('<f')` raise on a payload shorter than 4 bytes. -/
inductive ReadErr
  | notReadable
  | parseError (e : ParseErr)
  | invalidResponse
  | structError
deriving DecidableEq, Repr

/-- Values `read_variable` can return; a Float32 result is kept as its raw
little-endian bit pattern. -/
inductive ReadValue
  | intVal (v : Int)
  | floatBits (bits : Nat)
deriving DecidableEq, Repr

/-- The response-handling path of `read_variable` (protocol.py lines
354-371), applied to the inner response returned by `_send_receive`.
Note the source binds `status` from `_parse_response` but never tests it. -/
def read_variable (vt : VarType) (response : List Nat) : Except ReadErr ReadValue :=
  if vt.is_readable = false then .error .notReadable
  else
    match _parse_response response with
    | .error e => .error (.parseError e)
    | .ok (_, _, _, value_data) =>
      if value_data.length < 2 then .error .invalidResponse
      else
        match vt with
        | .INT16 => .ok (.intVal (i16le (value_data.getD 0 0) (value_data.getD 1 0)))
        | .INT32 =>
          if value_data.length < 4 then .error .structError
          else .ok (.intVal (i32le (value_data.getD 0 0) (value_data.getD 1 0)
            (value_data.getD 2 0) (value_data.getD 3 0)))
        | .FLOAT =>
          if value_data.length < 4 then .error .structError
          else .ok (.floatBits (u32le (value_data.getD 0 0) (value_data.getD 1 0)
            (value_data.getD 2 0) (value_data.getD 3 0)))
        | _ => .error .notReadable

/-- The `struct.error` raised by `struct.pack_into('<i', …)` when the value
is outside `[-2^31, 2^31)`. -/
inductive StructErr
  | argumentOutOfRange
deriving DecidableEq, Repr

/-- `struct.pack_into('<i', header, 0, v)`: two's-complement little-endian
bytes of `v`, or `struct.error` when `v` does not fit a signed 32-bit
integer. -/
def pack_int32 (v : Int) : Except StructErr (List Nat) :=
  if -2147483648 ≤ v ∧ v < 2147483648 then .ok (packU32 (v % 4294967296).toNat)
  else .error .argumentOutOfRange

/-- The outer-header construction of `_send_receive_internal` (protocol.py
lines 301-307): transaction id (signed 32-bit pack), zero type word,
session key, zero checksum placeholder, and the inner-length byte
`len(payload) - 6` (a bytearray item assignment, which raises unless the
value is a byte). -/
def build_header (transaction_id : Int) (key : Nat) (inner_len : Nat) :
    Except StructErr (List Nat) :=
  match pack_int32 transaction_id with
  | .error e => .error e
  | .ok txb =>
    if 255 < inner_len then .error .argumentOutOfRange
    else .ok (txb ++ [0, 0] ++ packU32 key ++ packU32 0 ++ [inner_len])

/-- `self._transaction_id += 1`, executed once per transmitted datagram
(protocol.py line 324); the counter is an unbounded Python int. -/
def next_transaction_id (t : Int) : Int := t + 1

/-- `self._transaction_id = 1` (protocol.py line 174). -/
def initial_transaction_id : Int := 1

/-- A scripted peer reply for the timing model of `_send_receive_internal`:
either a key-sync envelope (outer type `0x1111`) or a normal answer. -/
inductive PeerReply
  | keySync
  | answer
deriving DecidableEq, Repr

/-- Timing model of the wait-and-retry structure of
`_send_receive_internal` (protocol.py lines 326-344). The script lists the
peer's replies with their arrival delays. Each attempt awaits its reply
under `asyncio.wait_for(…, timeout=self.timeout)`, so a reply arriving
after more than `timeout` turns into a `TimeoutError` after `timeout`
elapsed; a key-sync reply causes a recursive call, whose wait again runs
under a fresh `wait_for(…, timeout=self.timeout)`. Returns the total time
elapsed inside the call and whether it returned an answer (`false` =
raised `TimeoutError`). -/
def send_receive_elapsed (timeout : Nat) : List (Nat × PeerReply) → Nat × Bool
  | [] => (timeout, false)
  | (d, r) :: rest =>
    if timeout < d then (timeout, false)
    else
      match r with
      | .keySync =>
        let e := send_receive_elapsed timeout rest
        (d + e.1, e.2)
      | .answer => (d, true)

/-- Pad a descriptor name to the 10 bytes of the name field that a 22-byte
descriptor body carries. -/
def padName (name : List Nat) : List Nat := name ++ List.replicate (10 - name.length) 0

/-- A well-formed inner response to a descriptor probe: `0x68` frame of
declared length 26 whose 22-byte body carries type code Float32 at offset
2, `wid` little-endian at offset 8, and the name field from offset 12. -/
def mkDescriptorResp (wid : Nat) (name : List Nat) : List Nat :=
  [0x68, 26, 26, 0x68, 4, 31, 0x4D, 0x00] ++
  [0, 0, 2, 0, 0, 0, 0, 0, wid % 256, wid / 256 % 256, 0, 0] ++ padName name

/-- Name `T01` … `T10` for scenario S6's descriptor at offset `i`. -/
def s6Name (i : Nat) : List Nat := [84, 48 + (i + 1) / 10, 48 + (i + 1) % 10]

/-- The scenario-S6 peer: valid Float32 descriptors with wids 4000..4009 at
offsets 0..9, then failures at every further offset. -/
def s6Peer (i : Nat) : Except ProbeErr (List Nat) :=
  if i < 10 then .ok (mkDescriptorResp (4000 + i) (s6Name i)) else .error .timeout

/-- The ten variables scenario S6 must produce. -/
def s6Expected : List Variable :=
  (List.range 10).map (fun i =>
    { name := s6Name i, wid := 4000 + i, var_type := .FLOAT, writable := true })

/-- A peer that answers probe 0 and probe 1 with the same valid descriptor
(wid 4000, name `T01`) and fails afterwards. -/
def dupPeer (i : Nat) : Except ProbeErr (List Nat) :=
  if i < 2 then .ok (mkDescriptorResp 4000 [84, 48, 49]) else .error .timeout

/-- The variable produced by a descriptor whose name field starts with the
Latin-1 letter `é` (0xE9). -/
def eAcuteVar : Variable :=
  { name := [233, 49], wid := 4000, var_type := .FLOAT, writable := true }

theorem xorStream_length (mask : Nat → Nat) (plen : Nat) (l : List Nat) :
    ∀ j, (xorStream mask plen j l).length = l.length := by
  induction l with
  | nil => intro j; rfl
  | cons b bs ih => intro j; simp only [xorStream, List.length_cons, ih]

theorem xorStream_getD_lt (mask : Nat → Nat) (plen : Nat) (l : List Nat) :
    ∀ j k, j + k < 15 → (xorStream mask plen j l).getD k 0 = l.getD k 0 := by
  induction l with
  | nil => intro j k _; rfl
  | cons b bs ih =>
    intro j k hk
    cases k with
    | zero =>
      have hcond : ¬ (15 ≤ j ∧ j < 15 + plen) := by omega
      simp only [xorStream, List.getD_cons_zero, if_neg hcond]
    | succ k =>
      simp only [xorStream, List.getD_cons_succ]
      exact ih (j + 1) k (by omega)

theorem xorStream_involution (mask : Nat → Nat) (plen : Nat) (l : List Nat) :
    ∀ j, xorStream mask plen j (xorStream mask plen j l) = l := by
  induction l with
  | nil => intro j; rfl
  | cons b bs ih =>
    intro j
    by_cases h : 15 ≤ j ∧ j < 15 + plen
    · simp only [xorStream, if_pos h, ih (j + 1), List.cons.injEq, and_true]
      rw [Nat.xor_assoc, Nat.xor_self, Nat.xor_zero]
    · simp only [xorStream, if_neg h, ih (j + 1)]

theorem encrypt_msg_eq (msg : List Nat) (password : Nat)
    (h : 15 + (msg.getD 14 0 + 6) ≤ msg.length) :
    _encrypt_msg msg password = some (xorStream (streamMask
      (u32le (msg.getD 6 0) (msg.getD 7 0) (msg.getD 8 0) (msg.getD 9 0))
      (u32le (msg.getD 0 0) (msg.getD 1 0) (msg.getD 2 0) (msg.getD 3 0)))
      (msg.getD 14 0 + 6) 0 msg) := by
  unfold _encrypt_msg
  rw [if_neg (by omega)]

/-- Claim C1: for every 32-bit password and every message buffer whose
15-byte header declares inner length `header[14]` (buffer length at least
`15 + header[14] + 6`), applying `_encrypt_msg` twice with the same
password yields the original byte sequence unchanged. -/
theorem c1_cipher_involution (msg : List Nat) (password : Nat)
    (h : 15 + (msg.getD 14 0 + 6) ≤ msg.length) :
    (_encrypt_msg msg password).bind (fun m => _encrypt_msg m password) = some msg := by
  rw [encrypt_msg_eq msg password h, Option.some_bind]
  have hlen := xorStream_length (streamMask
      (u32le (msg.getD 6 0) (msg.getD 7 0) (msg.getD 8 0) (msg.getD 9 0))
      (u32le (msg.getD 0 0) (msg.getD 1 0) (msg.getD 2 0) (msg.getD 3 0)))
      (msg.getD 14 0 + 6) msg 0
  have hg : ∀ k, k < 15 → (xorStream (streamMask
      (u32le (msg.getD 6 0) (msg.getD 7 0) (msg.getD 8 0) (msg.getD 9 0))
      (u32le (msg.getD 0 0) (msg.getD 1 0) (msg.getD 2 0) (msg.getD 3 0)))
      (msg.getD 14 0 + 6) 0 msg).getD k 0 = msg.getD k 0 := by
    intro k hk
    exact xorStream_getD_lt _ _ msg 0 k (by omega)
  rw [encrypt_msg_eq _ password (by rw [hlen, hg 14 (by omega)]; exact h)]
  rw [hg 0 (by omega), hg 1 (by omega), hg 2 (by omega), hg 3 (by omega),
    hg 6 (by omega), hg 7 (by omega), hg 8 (by omega), hg 9 (by omega), hg 14 (by omega)]
  rw [xorStream_involution]

theorem c1_cipher_involution_witness :
    (_encrypt_msg (List.replicate 21 0) 7).bind (fun m => _encrypt_msg m 7) =
      some (List.replicate 21 0) :=
  c1_cipher_involution (List.replicate 21 0) 7 (by decide)

/-- Claim C3, counterexample: the frame checksum of
`[0x04, 0x1F, 0x4D, 0x01, 0x00, 0xA0, 0x0F]` is not `0x1D`. -/
theorem c3_checksum_counterexample :
    ¬ _calc_checksum [0x04, 0x1F, 0x4D, 0x01, 0x00, 0xA0, 0x0F] = 0x1D := by decide

/-- Claim C3, amended: the frame checksum of
`[0x04, 0x1F, 0x4D, 0x01, 0x00, 0xA0, 0x0F]` is `0x21`. -/
theorem c3_checksum_vector :
    _calc_checksum [0x04, 0x1F, 0x4D, 0x01, 0x00, 0xA0, 0x0F] = 0x21 := by decide

/-- Claim C6, counterexample: a well-formed 5-byte acknowledgment frame is
rejected as too short by `_parse_response`, not parsed successfully. -/
theorem c6_ack_counterexample :
    _parse_response [0x10, 1, 2, 3, 4] = .error .tooShort := by decide

/-- Claim C6, amended: `_parse_response` accepts an acknowledgment frame
only from 6 bytes on; for every buffer of length at least 6 beginning with
`0x10` it returns `(dest, src, fcb & 0x0F, empty payload)`. -/
theorem c6_parse_ack (dest src fcb b4 b5 : Nat) (rest : List Nat) :
    _parse_response (0x10 :: dest :: src :: fcb :: b4 :: b5 :: rest) =
      .ok (dest, src, Nat.land fcb 0x0F, []) := by
  unfold _parse_response
  rw [if_neg (by simp only [List.length_cons]; omega)]
  simp

theorem loadVarsLoop_done (peer : Nat → Except ProbeErr (List Nat))
    (index fails fuel : Nat) (acc : List Variable) (h : 10 ≤ fails) :
    loadVarsLoop peer index fails fuel acc = (acc, index) := by
  cases fuel with
  | zero => rfl
  | succ fuel => rw [loadVarsLoop, if_pos h]

theorem loadVarsLoop_all_fail (peer : Nat → Except ProbeErr (List Nat))
    (hp : ∀ i, processProbe (peer i) = none) :
    ∀ (fuel index fails : Nat) (acc : List Variable), fails < 10 →
      loadVarsLoop peer index fails fuel acc = (acc, index + min fuel (10 - fails)) := by
  intro fuel
  induction fuel with
  | zero => intro index fails acc _; simp [loadVarsLoop]
  | succ fuel ih =>
    intro index fails acc h
    rw [loadVarsLoop, if_neg (by omega), hp index]
    by_cases h9 : fails + 1 < 10
    · rw [ih (index + 1) (fails + 1) acc h9]
      refine congrArg (Prod.mk acc) ?_
      omega
    · rw [loadVarsLoop_done peer (index + 1) (fails + 1) fuel acc (by omega)]
      refine congrArg (Prod.mk acc) ?_
      omega

/-- Claim C5: against a peer whose every probe fails (malformed descriptors
or exceptions), `load_variables` terminates with the empty catalog after
exactly `max_failures = 10` probes; against the scenario-S6 peer (valid
descriptors with wids 4000..4009 at offsets 0..9, failures afterwards) it
returns exactly those ten variables sorted ascending by wid and stops after
probe 19, issuing no probe once the ten-consecutive-failure bound is
reached. -/
theorem c5_enumeration :
    (∀ peer : Nat → Except ProbeErr (List Nat), (∀ i, processProbe (peer i) = none) →
      load_variables peer 1500 = ([], 10)) ∧
    load_variables s6Peer 1500 = (s6Expected, 20) ∧
    s6Expected.map Variable.wid =
      [4000, 4001, 4002, 4003, 4004, 4005, 4006, 4007, 4008, 4009] := by
  refine ⟨?_, by decide, by decide⟩
  intro peer hp
  unfold load_variables
  rw [loadVarsLoop_all_fail peer hp 1500 0 0 [] (by omega)]
  decide

theorem c5_enumeration_witness :
    load_variables (fun _ => Except.error ProbeErr.malformed) 1500 = ([], 10) :=
  c5_enumeration.1 (fun _ => Except.error ProbeErr.malformed) (fun _ => rfl)

/-- Claim C10: `load_variables` propagates no probe error to the caller:
every exception a probe raises — the `RuntimeError` of a never-connected
transport, timeouts, transport errors — is caught and counted as a
consecutive failure, so a peer whose every probe raises (in particular a
never-connected client, where every probe raises `Not connected`) yields
the empty list after exactly 10 probe attempts. -/
theorem c10_no_error_propagation :
    (∀ err : Nat → ProbeErr,
      load_variables (fun i => Except.error (err i)) 1500 = ([], 10)) ∧
    load_variables (fun _ => Except.error ProbeErr.notConnected) 1500 = ([], 10) := by
  refine ⟨?_, ?_⟩
  · intro err
    unfold load_variables
    rw [loadVarsLoop_all_fail (fun i => Except.error (err i)) (fun _ => rfl)
      1500 0 0 [] (by omega)]
    decide
  · unfold load_variables
    rw [loadVarsLoop_all_fail (fun _ => Except.error ProbeErr.notConnected) (fun _ => rfl)
      1500 0 0 [] (by omega)]
    decide

/-- Claim C2, counterexample: with the configured timeout 2 and a peer that
replies KeySync twice (each reply arriving after 2 time units) and then
answers, `_send_receive_internal` succeeds after 6 time units of waiting —
the KeySync retries do not share the caller's outer deadline, because each
recursive attempt runs a fresh `asyncio.wait_for(…, timeout=self.timeout)`. -/
theorem c2_keysync_counterexample :
    send_receive_elapsed 2 [(2, .keySync), (2, .keySync), (2, .answer)] = (6, true) ∧
    ¬ (send_receive_elapsed 2 [(2, .keySync), (2, .keySync), (2, .answer)]).1 ≤ 2 := by
  decide

/-- Claim C2, amended: each KeySync retry restarts the full per-attempt
timeout instead of sharing an outer deadline; the total wait of one
`send_receive` call is bounded only by `(number of peer replies + 1) ×
timeout`, growing without bound in the number of KeySync replies. -/
theorem c2_keysync_retry_timeout (timeout : Nat) (script : List (Nat × PeerReply)) :
    (send_receive_elapsed timeout script).1 ≤ (script.length + 1) * timeout := by
  induction script with
  | nil =>
    simp only [send_receive_elapsed, List.length_nil]
    omega
  | cons p rest ih =>
    obtain ⟨d, r⟩ := p
    by_cases hd : timeout < d
    · simp only [send_receive_elapsed, if_pos hd, List.length_cons]
      nlinarith
    · cases r with
      | keySync =>
        simp only [send_receive_elapsed, if_neg hd, List.length_cons]
        have hm : (rest.length + 1 + 1) * timeout = timeout + (rest.length + 1) * timeout := by
          ring
        omega
      | answer =>
        simp only [send_receive_elapsed, if_neg hd, List.length_cons]
        nlinarith

/-- Claim C8, counterexample: a peer serving the same valid descriptor
(wid 4000) at offsets 0 and 1 makes `load_variables` return a catalog with
two entries of wid 4000 — wid is not unique within one catalog. -/
theorem c8_dup_wid_counterexample :
    (load_variables dupPeer 1500).1.map Variable.wid = [4000, 4000] ∧
    ¬ ((load_variables dupPeer 1500).1.map Variable.wid).Nodup := by decide

/-- Claim C8, amended: the catalog returned by one run of `load_variables`
is sorted in non-decreasing wid order, but wid values need not be pairwise
distinct. -/
theorem c8_catalog_sorted (peer : Nat → Except ProbeErr (List Nat)) (max_variables : Nat) :
    List.Sorted widLE (load_variables peer max_variables).1 := by
  unfold load_variables sortByWid
  exact List.sorted_insertionSort widLE _

/-- Claim C4, counterexample: the response
`[0x68, 6, 6, 0x68, 4, 31, 0x45, 0x01, 7, 0]` parses cleanly with status
nibble `5 ≠ 0`, yet `read_variable` returns the decoded value `7` instead
of failing — the source binds `status` and never tests it, and no
`ProtocolReject` error exists in the code. -/
theorem c4_status_counterexample :
    _parse_response [0x68, 6, 6, 0x68, 4, 31, 0x45, 0x01, 7, 0] = .ok (4, 31, 5, [7, 0]) ∧
    (5 : Nat) ≠ 0 ∧
    read_variable .INT16 [0x68, 6, 6, 0x68, 4, 31, 0x45, 0x01, 7, 0] =
      .ok (.intVal 7) := by decide

/-- Claim C4, amended: `read_variable` ignores the status nibble entirely.
Whenever the response parses and the value payload holds enough bytes
(2 for Int16, 4 for Int32 and Float32), the read returns the decoded
value, whatever the status is; errors arise only from parse failures or
short payloads, never from a non-zero status. -/
theorem c4_read_ignores_status (response : List Nat) (d s st : Nat) (vd : List Nat)
    (hparse : _parse_response response = .ok (d, s, st, vd)) :
    (2 ≤ vd.length → read_variable .INT16 response =
      .ok (.intVal (i16le (vd.getD 0 0) (vd.getD 1 0)))) ∧
    (4 ≤ vd.length → read_variable .INT32 response =
      .ok (.intVal (i32le (vd.getD 0 0) (vd.getD 1 0) (vd.getD 2 0) (vd.getD 3 0)))) ∧
    (4 ≤ vd.length → read_variable .FLOAT response =
      .ok (.floatBits (u32le (vd.getD 0 0) (vd.getD 1 0) (vd.getD 2 0) (vd.getD 3 0)))) := by
  refine ⟨?_, ?_, ?_⟩ <;> intro hlen
  · unfold read_variable
    rw [hparse]
    show (if vd.length < 2 then (Except.error ReadErr.invalidResponse : Except ReadErr ReadValue)
        else Except.ok (ReadValue.intVal (i16le (vd.getD 0 0) (vd.getD 1 0)))) =
      Except.ok (ReadValue.intVal (i16le (vd.getD 0 0) (vd.getD 1 0)))
    rw [if_neg (by omega)]
  · unfold read_variable
    rw [hparse]
    show (if vd.length < 2 then (Except.error ReadErr.invalidResponse : Except ReadErr ReadValue)
        else if vd.length < 4 then Except.error ReadErr.structError
        else Except.ok (ReadValue.intVal
          (i32le (vd.getD 0 0) (vd.getD 1 0) (vd.getD 2 0) (vd.getD 3 0)))) =
      Except.ok (ReadValue.intVal (i32le (vd.getD 0 0) (vd.getD 1 0) (vd.getD 2 0) (vd.getD 3 0)))
    rw [if_neg (by omega), if_neg (by omega)]
  · unfold read_variable
    rw [hparse]
    show (if vd.length < 2 then (Except.error ReadErr.invalidResponse : Except ReadErr ReadValue)
        else if vd.length < 4 then Except.error ReadErr.structError
        else Except.ok (ReadValue.floatBits
          (u32le (vd.getD 0 0) (vd.getD 1 0) (vd.getD 2 0) (vd.getD 3 0)))) =
      Except.ok (ReadValue.floatBits (u32le (vd.getD 0 0) (vd.getD 1 0) (vd.getD 2 0) (vd.getD 3 0)))
    rw [if_neg (by omega), if_neg (by omega)]

theorem c4_read_ignores_status_witness :
    read_variable .INT16 [0x68, 8, 8, 0x68, 4, 31, 0x45, 0x01, 7, 0, 0, 0] =
      .ok (.intVal (i16le (([7, 0, 0, 0] : List Nat).getD 0 0)
        (([7, 0, 0, 0] : List Nat).getD 1 0))) ∧
    read_variable .INT32 [0x68, 8, 8, 0x68, 4, 31, 0x45, 0x01, 7, 0, 0, 0] =
      .ok (.intVal (i32le (([7, 0, 0, 0] : List Nat).getD 0 0)
        (([7, 0, 0, 0] : List Nat).getD 1 0)
        (([7, 0, 0, 0] : List Nat).getD 2 0) (([7, 0, 0, 0] : List Nat).getD 3 0))) ∧
    read_variable .FLOAT [0x68, 8, 8, 0x68, 4, 31, 0x45, 0x01, 7, 0, 0, 0] =
      .ok (.floatBits (u32le (([7, 0, 0, 0] : List Nat).getD 0 0)
        (([7, 0, 0, 0] : List Nat).getD 1 0)
        (([7, 0, 0, 0] : List Nat).getD 2 0) (([7, 0, 0, 0] : List Nat).getD 3 0))) :=
  ⟨(c4_read_ignores_status [0x68, 8, 8, 0x68, 4, 31, 0x45, 0x01, 7, 0, 0, 0] 4 31 5
      [7, 0, 0, 0] (by decide)).1 (by decide),
   (c4_read_ignores_status [0x68, 8, 8, 0x68, 4, 31, 0x45, 0x01, 7, 0, 0, 0] 4 31 5
      [7, 0, 0, 0] (by decide)).2.1 (by decide),
   (c4_read_ignores_status [0x68, 8, 8, 0x68, 4, 31, 0x45, 0x01, 7, 0, 0, 0] 4 31 5
      [7, 0, 0, 0] (by decide)).2.2 (by decide)⟩

/-- Claim C7, counterexample: a descriptor whose decoded name begins with
the non-ASCII Latin-1 letter `é` (code point 233) and whose wid is 4000 is
accepted by the enumeration filter, not counted as a failure — Python's
`str.isalpha()` is true on every Latin-1 letter, not only ASCII ones. -/
theorem c7_alpha_counterexample :
    processProbe (.ok (mkDescriptorResp 4000 [233, 49])) =
      some { name := [233, 49], wid := 4000, var_type := .FLOAT, writable := true } ∧
    ¬ ((65 ≤ 233 ∧ (233 : Nat) ≤ 90) ∨ (97 ≤ 233 ∧ (233 : Nat) ≤ 122)) := by decide

/-- Claim C7, amended: the enumeration accepts a probed descriptor only if
the decoded name is nonempty, its first character is alphabetic in the
Unicode sense restricted to Latin-1 (ASCII letters or the Latin-1 letters
U+00AA, U+00B5, U+00BA, U+00C0–U+00D6, U+00D8–U+00F6, U+00F8–U+00FF), and
`4000 ≤ wid ≤ 6000`. -/
theorem c7_accept_filter (r : Except ProbeErr (List Nat)) (v : Variable)
    (h : processProbe r = some v) :
    v.name ≠ [] ∧ latin1IsAlpha (v.name.getD 0 0) = true ∧
      4000 ≤ v.wid ∧ v.wid ≤ 6000 := by
  unfold processProbe at h
  split at h
  · exact absurd h (by simp)
  · split at h
    · exact absurd h (by simp)
    · simp only [] at h
      split at h
      · exact absurd h (by simp)
      · split at h
        · rename_i hcond
          rw [Option.some.injEq] at h
          subst h
          exact hcond
        · exact absurd h (by simp)

theorem c7_accept_filter_witness :
    eAcuteVar.name ≠ [] ∧ latin1IsAlpha (eAcuteVar.name.getD 0 0) = true ∧
      4000 ≤ eAcuteVar.wid ∧ eAcuteVar.wid ≤ 6000 :=
  c7_accept_filter (.ok (mkDescriptorResp 4000 [233, 49])) eAcuteVar (by decide)

theorem iterate_next_tid (n : Nat) :
    next_transaction_id^[n] initial_transaction_id = 1 + n := by
  induction n with
  | zero => rfl
  | succ n ih =>
    rw [Function.iterate_succ_apply', ih]
    unfold next_transaction_id
    push_cast
    ring

/-- Claim C9, counterexample: the transaction counter is an unbounded
Python int that reaches `2^31` after `2^31 - 1` transmissions, and there
`struct.pack_into('<i', …)` raises `struct.error` instead of wrapping —
header construction does not succeed for every counter value. -/
theorem c9_wrap_counterexample :
    next_transaction_id^[2147483647] initial_transaction_id = 2147483648 ∧
    build_header 2147483648 0 7 = .error .argumentOutOfRange := by
  refine ⟨?_, by decide⟩
  rw [iterate_next_tid]
  norm_num

/-- Claim C9, amended: the transaction counter starts at 1 and increases by
exactly one on every transmitted request (timed-out sends and KeySync
retries included), but it is never reduced modulo anything: header
construction succeeds exactly while the counter fits a signed 32-bit
integer, and for `0 ≤ t < 2^31` the header's bytes 0..4 carry `t`
little-endian (which equals `t mod 2^32`). -/
theorem c9_transaction_header :
    (∀ t : Int, 0 ≤ t → t < 2147483648 → ∀ key inner_len : Nat, inner_len ≤ 255 →
      build_header t key inner_len =
        .ok (packU32 t.toNat ++ [0, 0] ++ packU32 key ++ packU32 0 ++ [inner_len])) ∧
    (∀ n : Nat, next_transaction_id^[n] initial_transaction_id = 1 + n) := by
  refine ⟨?_, iterate_next_tid⟩
  intro t h0 h1 key inner_len hlen
  unfold build_header pack_int32
  rw [if_pos ⟨by omega, h1⟩, Int.emod_eq_of_lt h0 (by omega)]
  show (if 255 < inner_len then (Except.error StructErr.argumentOutOfRange :
        Except StructErr (List Nat))
      else Except.ok (packU32 t.toNat ++ [0, 0] ++ packU32 key ++ packU32 0 ++ [inner_len])) =
    Except.ok (packU32 t.toNat ++ [0, 0] ++ packU32 key ++ packU32 0 ++ [inner_len])
  rw [if_neg (by omega)]

theorem c9_transaction_header_witness :
    build_header 5 0 7 =
      .ok (packU32 (5 : Int).toNat ++ [0, 0] ++ packU32 0 ++ packU32 0 ++ [7]) ∧
    next_transaction_id^[3] initial_transaction_id = 1 + 3 :=
  ⟨c9_transaction_header.1 5 (by norm_num) (by norm_num) 0 7 (by norm_num),
   c9_transaction_header.2 3⟩
